import Mathlib

-- Verification of the CoastalSEO Google Search Console dashboard core:
-- credential store (src/api/client.py), paginated query engine and derived
-- views (src/api/search_analytics.py), sitemap listing (src/api/sitemaps.py)
-- and batch URL inspection (src/api/url_inspection.py).

namespace CoastalSEO

/-- SCOPES from src/utils/constants.py. -/
def SCOPES : List String :=
  ["https://www.googleapis.com/auth/webmasters.readonly",
   "https://www.googleapis.com/auth/webmasters"]

/-- MAX_ROWS_PER_REQUEST from src/utils/constants.py. -/
def MAX_ROWS_PER_REQUEST : Nat := 25000

/-- A Python `datetime`: wall-clock value in seconds together with an optional
timezone offset (seconds east of UTC).  `tzOffset = none` models a naive
datetime (`tzinfo is None`). -/
structure PyDateTime where
  wall : Int
  tzOffset : Option Int
deriving DecidableEq

/-- The instant a datetime denotes, as seconds since the epoch in UTC; a naive
datetime is read at offset 0, i.e. as UTC. -/
def PyDateTime.utcSeconds (d : PyDateTime) : Int :=
  d.wall - d.tzOffset.getD 0

/-- `expiry.replace(tzinfo=timezone.utc)` applied only when `tzinfo is None`
(client.py lines 91-92 and 125-126). -/
def PyDateTime.forceUtc (d : PyDateTime) : PyDateTime :=
  match d.tzOffset with
  | none => { d with tzOffset := some 0 }
  | some _ => d

/-- Python falsiness of an optional string: `None` and `""` are falsy. -/
def str_falsy : Option String → Bool
  | none => true
  | some s => s == ""

/-- The google-auth `Credentials` object as used by src/api/client.py.
`googleAuthExpired` abstracts the third-party `creds.expired` property
("the transport layer reports it expired"). -/
structure Creds where
  token : Option String
  refresh_token : Option String
  token_uri : String
  client_id : Option String
  client_secret : Option String
  scopes : List String
  expiry : Option PyDateTime
  googleAuthExpired : Bool
deriving DecidableEq

/-- _needs_refresh (client.py lines 79-97).  `now` is the current UTC time in
seconds since the epoch (`datetime.now(timezone.utc)`). -/
def needs_refresh (creds : Creds) (now : Int) : Bool :=
  if str_falsy creds.token then true
  else if creds.googleAuthExpired then true
  else
    match creds.expiry with
    | some expiry0 =>
      if (expiry0.forceUtc).utcSeconds - now < 300 then true else false
    | none => false

/-- The parsed JSON object a credential source yields, with the fields
_load_credentials reads (client.py lines 120-139).  The `expiry` field:
`none` = absent or falsy; `some none` = present but `datetime.fromisoformat`
raises; `some (some d)` = parses to `d`. -/
structure TokenData where
  token : Option String
  refresh_token : Option String
  token_uri : Option String
  client_id : Option String
  client_secret : Option String
  scopes : Option (List String)
  expiry : Option (Option PyDateTime)
deriving DecidableEq

/-- What `creds.refresh(Request())` writes back on success: the new access
token and the new expiry google-auth sets. -/
structure RefreshedToken where
  newToken : String
  newExpiry : Option PyDateTime
deriving DecidableEq

/-- The environment _load_credentials runs in.  `fileData` is what
_load_from_file yields (client.py lines 30-38): the parsed token file, or
`none` on a missing file or JSON/OS error.  `googleTokenJsonData` is what the
environment variable GOOGLE_TOKEN_JSON would parse to after stripping control
characters from its raw text (`none` when unset or unparsable); it is part of
the environment model so claims about that source can be stated — the code of
_load_credentials never reads it.  `refreshOutcome = none` means the network
refresh raises.  `transportExpired` is what the third-party `expired` property
reports for freshly constructed credentials. -/
structure CredEnv where
  fileData : Option TokenData
  googleTokenJsonData : Option TokenData
  GOOGLE_REFRESH_TOKEN : String
  GOOGLE_CLIENT_ID : String
  GOOGLE_CLIENT_SECRET : String
  refreshOutcome : Option RefreshedToken
  transportExpired : Bool
deriving DecidableEq

/-- _load_from_env_vars (client.py lines 41-56). -/
def load_from_env_vars (env : CredEnv) : Option TokenData :=
  if env.GOOGLE_REFRESH_TOKEN ≠ "" ∧ env.GOOGLE_CLIENT_ID ≠ "" ∧
      env.GOOGLE_CLIENT_SECRET ≠ "" then
    some { token := none
           refresh_token := some env.GOOGLE_REFRESH_TOKEN
           token_uri := some "https://oauth2.googleapis.com/token"
           client_id := some env.GOOGLE_CLIENT_ID
           client_secret := some env.GOOGLE_CLIENT_SECRET
           scopes := some SCOPES
           expiry := none }
  else none

/-- client.py lines 120-128: parse the expiry if present, tolerating a missing
or invalid value, and interpret a naive timestamp as UTC. -/
def parse_expiry : Option (Option PyDateTime) → Option PyDateTime
  | some (some d) => some d.forceUtc
  | _ => none

/-- client.py lines 130-139: the Credentials record constructed from the
parsed source data.  The constructor raises for none of the inputs modelled
here, so the except branch at line 140 is dead in this model. -/
def creds_of_data (env : CredEnv) (d : TokenData) : Creds :=
  { token := d.token
    refresh_token := d.refresh_token
    token_uri := d.token_uri.getD "https://oauth2.googleapis.com/token"
    client_id := d.client_id
    client_secret := d.client_secret
    scopes := d.scopes.getD SCOPES
    expiry := parse_expiry d.expiry
    googleAuthExpired := env.transportExpired }

/-- client.py line 147: the in-place mutation `creds.refresh(Request())`
performs on success. -/
def refreshed_creds (env : CredEnv) (d : TokenData) (r : RefreshedToken) : Creds :=
  { creds_of_data env d with token := some r.newToken, expiry := r.newExpiry }

/-- The observable outcome of one _load_credentials call: the returned value,
the new `_cached_creds` global, and the `_last_error` global.  The token-file
write in _save_credentials (line 148) is a side effect with no bearing on
these and is elided; the diagnostic strings abstract from the interpolated
exception text. -/
structure LoadResult where
  creds : Option Creds
  cache : Option Creds
  last_error : Option String
deriving DecidableEq

/-- _load_credentials after a cache miss (client.py lines 109-154). -/
def load_credentials_fresh (env : CredEnv) (now : Int) (cached : Option Creds) :
    LoadResult :=
  match (match env.fileData with
         | some d => some d
         | none => load_from_env_vars env) with
  | none =>
    { creds := none
      cache := cached
      last_error := some "No token file found and GOOGLE_REFRESH_TOKEN/GOOGLE_CLIENT_ID/GOOGLE_CLIENT_SECRET env vars not set" }
  | some d =>
    if needs_refresh (creds_of_data env d) now &&
        ! str_falsy (creds_of_data env d).refresh_token then
      match env.refreshOutcome with
      | some r =>
        { creds := some (refreshed_creds env d r)
          cache := some (refreshed_creds env d r)
          last_error := none }
      | none =>
        { creds := none, cache := cached, last_error := some "Token refresh failed" }
    else
      { creds := some (creds_of_data env d)
        cache := some (creds_of_data env d)
        last_error := none }

/-- _load_credentials (client.py lines 100-154).  `cached` is the process
global `_cached_creds`; a `Credentials` object is always truthy, so the guard
at line 106 is a `None` check plus the staleness check. -/
def load_credentials (env : CredEnv) (now : Int) (cached : Option Creds) :
    LoadResult :=
  match cached with
  | some c =>
    if needs_refresh c now then load_credentials_fresh env now cached
    else { creds := some c, cache := cached, last_error := none }
  | none => load_credentials_fresh env now cached

/-- get_auth_headers (client.py lines 162-167).  When the returned record's
access token is `None`, the concatenation `"Bearer " + creds.token` raises a
TypeError, modelled as the error case. -/
def get_auth_headers (env : CredEnv) (now : Int) (cached : Option Creds) :
    Except String (Option (String × String)) :=
  match (load_credentials env now cached).creds with
  | none => Except.ok none
  | some c =>
    match c.token with
    | none => Except.error "TypeError: can only concatenate str to str"
    | some t => Except.ok (some ("Authorization", "Bearer " ++ t))

/-- One row of the searchAnalytics/query response (search_analytics.py lines
58-70): the `keys` array and the four metrics, with the `.get` defaults
already applied.  The float metrics ctr and position are only copied, never
computed with, so they are carried as rationals. -/
structure RawRow where
  keys : List String
  clicks : Nat
  impressions : Nat
  ctr : Rat
  position : Rat
deriving DecidableEq

/-- One HTTP response of the analytics endpoint: the status code and
`resp.json().get("rows", [])`. -/
structure Page where
  status : Nat
  rows : List RawRow
deriving DecidableEq

/-- One flattened entry (search_analytics.py lines 62-71): the dimension
values keyed by dimension name, in dimension order, plus the four metrics. -/
structure Entry where
  dims : List (String × String)
  clicks : Nat
  impressions : Nat
  ctr : Rat
  position : Rat
deriving DecidableEq

/-- search_analytics.py lines 62-71: `keys[i] if i < len(keys) else ""`
zipped positionally against the requested dimensions. -/
def flatten_row (dims : List String) (row : RawRow) : Entry :=
  { dims := dims.enum.map fun p => (p.2, row.keys.getD p.1 "")
    clicks := row.clicks
    impressions := row.impressions
    ctr := row.ctr
    position := row.position }

/-- The while-loop of query_search_analytics (search_analytics.py lines
41-77).  The request body varies across iterations only in `startRow`, so the
remote server is abstracted as a function from that field to the response;
the fixed body fields (site, dates, search type, filters, aggregation) are
absorbed into it.  Returns the accumulated entries and the number of HTTP
requests issued. -/
def query_loop (server : Nat → Page) (row_limit : Nat) (dims : List String)
    (start_row : Nat) (acc : List Entry) (reqs : Nat) : List Entry × Nat :=
  if (server start_row).status ≠ 200 then (acc, reqs + 1)
  else if h0 : (server start_row).rows.length = 0 then (acc, reqs + 1)
  else if hshort : (server start_row).rows.length < min row_limit MAX_ROWS_PER_REQUEST then
    (acc ++ (server start_row).rows.map (flatten_row dims), reqs + 1)
  else if hlim : row_limit ≤ start_row + (server start_row).rows.length then
    (acc ++ (server start_row).rows.map (flatten_row dims), reqs + 1)
  else
    query_loop server row_limit dims (start_row + (server start_row).rows.length)
      (acc ++ (server start_row).rows.map (flatten_row dims)) (reqs + 1)
termination_by row_limit - start_row
decreasing_by omega

/-- query_search_analytics (search_analytics.py lines 21-79): short-circuit
on absent auth headers, else run the pagination loop from row 0. -/
def query_search_analytics (headers : Option (String × String))
    (server : Nat → Page) (row_limit : Nat) (dims : List String) :
    List Entry × Nat :=
  match headers with
  | none => ([], 0)
  | some _ => query_loop server row_limit dims 0 [] 0

/-- Stable ascending insertion by the clicks key: a later element is placed
after every element it ties with. -/
def insert_asc_clicks (x : Entry) : List Entry → List Entry
  | [] => [x]
  | y :: ys => if x.clicks < y.clicks then x :: y :: ys else y :: insert_asc_clicks x ys

/-- Stable ascending sort by clicks, processing rows in input order. -/
def sort_asc_clicks (l : List Entry) : List Entry :=
  l.foldl (fun acc x => insert_asc_clicks x acc) []

/-- `df.sort_values("clicks", ascending=False)` (search_analytics.py line
95).  For a single sort key pandas computes the indexer in
pandas.core.sorting.nargsort: for a descending sort it first reverses the
values together with their indices (`non_nans = non_nans[::-1]`,
`non_nan_idx = non_nan_idx[::-1]`), argsorts the reversed values ascending,
and finally reverses the resulting indexer (`indexer = indexer[::-1]`).
At the list level that is: reverse the rows, sort them ascending, reverse
the result — the double reversal makes a stable underlying argsort yield a
stable descending sort (ties keep their original order).  The underlying
argsort is stable wherever numpy sorts stably: under the default kind
"quicksort", introsort runs a stable insertion sort on arrays shorter than
16 elements; this definition models that stable regime. -/
def sort_values_clicks_desc (l : List Entry) : List Entry :=
  (sort_asc_clicks l.reverse).reverse

/-- get_top_queries (search_analytics.py lines 91-96): query with the single
dimension "query", then sort by clicks descending (an empty frame is returned
unsorted, which coincides with sorting it). -/
def get_top_queries (headers : Option (String × String)) (server : Nat → Page)
    (row_limit : Nat) : List Entry :=
  sort_values_clicks_desc (query_search_analytics headers server row_limit ["query"]).1

/-- The sitemaps listing response: status code and
`resp.json().get("sitemap", [])`, the entries carried opaquely. -/
structure SitemapResp where
  status : Nat
  sitemaps : List String
deriving DecidableEq

/-- list_sitemaps (sitemaps.py lines 19-28): short-circuit on absent headers,
one GET otherwise, empty list on a non-200 status.  Returns the listed
sitemaps and the number of HTTP requests issued. -/
def list_sitemaps (headers : Option (String × String)) (resp : SitemapResp) :
    List String × Nat :=
  match headers with
  | none => ([], 0)
  | some _ => (if resp.status = 200 then resp.sitemaps else [], 1)

/-- The inspection endpoint's response for one URL: status code, body text,
and `resp.json().get("inspectionResult", {})` modelled as an association
list (the empty list is the empty dict). -/
structure InspectResp where
  status : Nat
  bodyText : String
  inspectionResult : List (String × String)
deriving DecidableEq

/-- inspect_url (url_inspection.py lines 14-23).  The site URL is a fixed
body field and is absorbed into the abstract server.  Raising is modelled as
the error case, carrying the interpolated message of line 22. -/
def inspect_url (headers : Option (String × String))
    (server : String → InspectResp) (inspection_url : String) :
    Except String (List (String × String)) :=
  match headers with
  | none => Except.ok []
  | some _ =>
    if (server inspection_url).status ≠ 200 then
      Except.error ("API error " ++ toString (server inspection_url).status ++ ": "
        ++ (server inspection_url).bodyText)
    else Except.ok (server inspection_url).inspectionResult

/-- One element of the list batch_inspect_urls returns (url_inspection.py
lines 33 and 35). -/
structure BatchItem where
  url : String
  result : Option (List (String × String))
  error : Option String
deriving DecidableEq

/-- batch_inspect_urls (url_inspection.py lines 26-40).  The sleeps and the
progress callback are side effects with no bearing on the returned list and
are elided. -/
def batch_inspect_urls (headers : Option (String × String))
    (server : String → InspectResp) (urls : List String) : List BatchItem :=
  urls.map fun u =>
    match inspect_url headers server u with
    | Except.ok r => { url := u, result := some r, error := none }
    | Except.error e => { url := u, result := none, error := some e }

-- Concrete credential environments used by counterexamples and witnesses.

/-- A token file carrying a stale-but-present access token and a refresh
token: expiry at epoch second 0, explicitly tagged UTC. -/
def dC1 : TokenData :=
  { token := some "stale-access-token"
    refresh_token := some "refresh-token-1"
    token_uri := none
    client_id := some "client-id-1"
    client_secret := some "client-secret-1"
    scopes := none
    expiry := some (some { wall := 0, tzOffset := some 0 }) }

/-- Environment for C1: the token file loads `dC1` and the network refresh
raises. -/
def cexEnvC1 : CredEnv :=
  { fileData := some dC1
    googleTokenJsonData := none
    GOOGLE_REFRESH_TOKEN := ""
    GOOGLE_CLIENT_ID := ""
    GOOGLE_CLIENT_SECRET := ""
    refreshOutcome := none
    transportExpired := false }

/-- A perfectly parseable GOOGLE_TOKEN_JSON blob. -/
def dBlob : TokenData :=
  { token := some "blob-access-token"
    refresh_token := some "blob-refresh-token"
    token_uri := none
    client_id := some "blob-client-id"
    client_secret := some "blob-client-secret"
    scopes := none
    expiry := none }

/-- Environment for C2: the token file yields nothing, GOOGLE_TOKEN_JSON
holds a blob that parses fine once control characters are stripped, and the
discrete environment variables are unset. -/
def cexEnvC2 : CredEnv :=
  { fileData := none
    googleTokenJsonData := some dBlob
    GOOGLE_REFRESH_TOKEN := ""
    GOOGLE_CLIENT_ID := ""
    GOOGLE_CLIENT_SECRET := ""
    refreshOutcome := none
    transportExpired := false }

/-- A token file whose access token is the empty string and which has no
refresh token. -/
def dC4 : TokenData :=
  { token := some ""
    refresh_token := none
    token_uri := none
    client_id := none
    client_secret := none
    scopes := none
    expiry := none }

/-- Environment for C4: the store returns a record with an empty access
token (no refresh token, so the refresh step is skipped). -/
def cexEnvC4 : CredEnv :=
  { fileData := some dC4
    googleTokenJsonData := none
    GOOGLE_REFRESH_TOKEN := ""
    GOOGLE_CLIENT_ID := ""
    GOOGLE_CLIENT_SECRET := ""
    refreshOutcome := none
    transportExpired := false }

/-- C8: _needs_refresh judges a record stale exactly when it has no access
token (None or empty), or the transport layer reports it expired, or its
expiry timestamp — a naive timestamp being read at offset 0, i.e. as UTC — is
less than 300 seconds after the current time. -/
theorem needs_refresh_iff (creds : Creds) (now : Int) :
    needs_refresh creds now = true ↔
      (creds.token = none ∨ creds.token = some "") ∨
      creds.googleAuthExpired = true ∨
      (∃ e, creds.expiry = some e ∧ e.wall - e.tzOffset.getD 0 - now < 300) := by
  have hutc : ∀ e : PyDateTime, (e.forceUtc).utcSeconds = e.wall - e.tzOffset.getD 0 := by
    intro e
    cases h : e.tzOffset <;> simp [PyDateTime.forceUtc, PyDateTime.utcSeconds, h]
  have htok : str_falsy creds.token = true ↔ creds.token = none ∨ creds.token = some "" := by
    cases h : creds.token <;> simp [str_falsy]
  unfold needs_refresh
  by_cases h1 : str_falsy creds.token = true
  · simp [h1, htok.mp h1]
  · rw [if_neg (by simpa using h1)]
    have hno : ¬(creds.token = none ∨ creds.token = some "") := fun h => h1 (htok.mpr h)
    by_cases h2 : creds.googleAuthExpired
    · simp [h2]
    · rw [if_neg h2]
      cases hexp : creds.expiry with
      | none => simp [hno, h2]
      | some e =>
        by_cases h3 : e.wall - e.tzOffset.getD 0 - now < 300
        · simp [hutc e, h3]
        · simp [hutc e, h3, hno, h2]

-- C1: on refresh failure _load_credentials returns None unconditionally
-- (client.py lines 149-151); it never falls back to the stale record.

/-- C1 counterexample: a state satisfying every premise of the claim — the
loaded record is stale, carries a refresh token, has a non-empty prior access
token, and the refresh raises — on which _load_credentials nevertheless
returns Absent rather than the stale record. -/
theorem load_credentials_stale_token_refresh_failure_cex :
    cexEnvC1.fileData = some dC1 ∧
    dC1.token = some "stale-access-token" ∧
    str_falsy (creds_of_data cexEnvC1 dC1).token = false ∧
    str_falsy (creds_of_data cexEnvC1 dC1).refresh_token = false ∧
    needs_refresh (creds_of_data cexEnvC1 dC1) 1000000 = true ∧
    cexEnvC1.refreshOutcome = none ∧
    (load_credentials cexEnvC1 1000000 none).creds = none := by
  refine ⟨rfl, rfl, by decide, by decide, by decide, rfl, by decide⟩

/-- C1 amended: whenever the record loaded on a cache miss is stale and
carries a refresh token, and the network refresh fails, _load_credentials
returns Absent and records the refresh-failure diagnostic — regardless of
whether a prior access token is present. -/
theorem load_credentials_refresh_failure_returns_absent (env : CredEnv)
    (now : Int) (cached : Option Creds) (d : TokenData)
    (hcache : cached = none ∨ ∃ c, cached = some c ∧ needs_refresh c now = true)
    (hfile : env.fileData = some d)
    (hstale : needs_refresh (creds_of_data env d) now = true)
    (hrt : str_falsy (creds_of_data env d).refresh_token = false)
    (hfail : env.refreshOutcome = none) :
    (load_credentials env now cached).creds = none ∧
    (load_credentials env now cached).last_error = some "Token refresh failed" := by
  have hfresh : load_credentials_fresh env now cached =
      { creds := none, cache := cached, last_error := some "Token refresh failed" } := by
    unfold load_credentials_fresh
    rw [hfile]
    simp [hstale, hrt, hfail]
  rcases hcache with h | ⟨c, hc, hcstale⟩
  · subst h
    simp [load_credentials, hfresh]
  · subst hc
    simp [load_credentials, hcstale, hfresh]

/-- C1 witness: the amended theorem applied to the concrete environment. -/
theorem load_credentials_refresh_failure_returns_absent_witness :
    needs_refresh (creds_of_data cexEnvC1 dC1) 1000000 = true ∧
    (load_credentials cexEnvC1 1000000 none).last_error = some "Token refresh failed" :=
  ⟨by decide,
   (load_credentials_refresh_failure_returns_absent cexEnvC1 1000000 none dC1
     (Or.inl rfl) rfl (by decide) (by decide) rfl).2⟩

-- C2: _load_credentials (client.py lines 109-118) consults exactly two
-- sources — the token file, then the three discrete environment variables.
-- No code path parses GOOGLE_TOKEN_JSON or strips control characters; that
-- variable is only copied verbatim to the token file by src/start.py.

/-- C2 counterexample: the token file yields nothing and GOOGLE_TOKEN_JSON
holds a blob that would parse successfully after control-character stripping,
yet _load_credentials returns Absent with the no-source diagnostic — the blob
source the claim describes is never attempted. -/
theorem load_credentials_token_json_ignored_cex :
    cexEnvC2.fileData = none ∧
    cexEnvC2.googleTokenJsonData = some dBlob ∧
    (load_credentials cexEnvC2 0 none).creds = none ∧
    (load_credentials cexEnvC2 0 none).last_error =
      some "No token file found and GOOGLE_REFRESH_TOKEN/GOOGLE_CLIENT_ID/GOOGLE_CLIENT_SECRET env vars not set" :=
  ⟨rfl, rfl, by decide, by decide⟩

/-- C2 amended: the result of _load_credentials is independent of
GOOGLE_TOKEN_JSON, and when the token file yields nothing and the discrete
environment variables are not all set it returns Absent — there is no
intermediate JSON-blob source. -/
theorem load_credentials_two_sources_only (env : CredEnv) (now : Int)
    (cached : Option Creds) (tj : Option TokenData) :
    load_credentials { env with googleTokenJsonData := tj } now cached
      = load_credentials env now cached ∧
    (env.fileData = none → load_from_env_vars env = none →
      (load_credentials env now none).creds = none) := by
  constructor
  · cases env
    rfl
  · intro hfile henv
    simp [load_credentials, load_credentials_fresh, hfile, henv]

/-- C2 witness: the amended theorem applied to the concrete environment. -/
theorem load_credentials_two_sources_only_witness :
    cexEnvC2.fileData = none ∧ (load_credentials cexEnvC2 0 none).creds = none :=
  ⟨rfl, (load_credentials_two_sources_only cexEnvC2 0 none none).2 rfl rfl⟩

-- C4: get_auth_headers (client.py lines 162-167) only checks that the store
-- returned a record; it never checks the access token for emptiness.

/-- C4 counterexample: the store returns a record whose access token is the
empty string (empty token, no refresh token, so the refresh step is skipped),
and get_auth_headers returns the malformed header "Bearer " instead of
Absent. -/
theorem get_auth_headers_empty_token_cex :
    (load_credentials cexEnvC4 0 none).creds = some (creds_of_data cexEnvC4 dC4) ∧
    (creds_of_data cexEnvC4 dC4).token = some "" ∧
    get_auth_headers cexEnvC4 0 none = Except.ok (some ("Authorization", "Bearer ")) ∧
    Except.ok (some ("Authorization", "Bearer "))
      ≠ (Except.ok none : Except String (Option (String × String))) :=
  ⟨by decide, rfl, rfl, by simp⟩

/-- C4 amended: get_auth_headers returns Absent exactly when the store
returns Absent; when the store returns a record whose access token is the
string t — empty or not — it returns the header "Bearer t" (a None token
would instead raise a TypeError). -/
theorem get_auth_headers_absent_iff_store_absent (env : CredEnv) (now : Int)
    (cached : Option Creds) :
    (get_auth_headers env now cached = Except.ok none ↔
      (load_credentials env now cached).creds = none) ∧
    (∀ c t, (load_credentials env now cached).creds = some c → c.token = some t →
      get_auth_headers env now cached
        = Except.ok (some ("Authorization", "Bearer " ++ t))) := by
  cases h : (load_credentials env now cached).creds with
  | none =>
    constructor
    · simp [get_auth_headers, h]
    · intro c t hc ht
      exact Option.noConfusion hc
  | some c =>
    cases ht : c.token with
    | none =>
      constructor
      · simp [get_auth_headers, h, ht]
      · intro c' t hc' ht'
        rw [Option.some_inj] at hc'
        subst hc'
        rw [ht] at ht'
        exact Option.noConfusion ht'
    | some t =>
      constructor
      · simp [get_auth_headers, h, ht]
      · intro c' t' hc' ht'
        rw [Option.some_inj] at hc'
        subst hc'
        rw [ht, Option.some_inj] at ht'
        subst ht'
        simp [get_auth_headers, h, ht]

/-- C4 witness: the amended theorem applied to the concrete environment with
the empty-string access token. -/
theorem get_auth_headers_absent_iff_store_absent_witness :
    get_auth_headers cexEnvC4 0 none
      = Except.ok (some ("Authorization", "Bearer " ++ "")) :=
  (get_auth_headers_absent_iff_store_absent cexEnvC4 0 none).2
    (creds_of_data cexEnvC4 dC4) "" (by decide) rfl

/-- A header value reused by concrete pagination scenarios. -/
def hdrW : String × String := ("Authorization", "Bearer test-token")

/-- Shared helper: when the first page has a 200 status and a non-zero row
count below the requested page size, the loop stops after that one request
and returns its flattened rows. -/
theorem query_loop_short_first (server : Nat → Page) (row_limit : Nat)
    (dims : List String) (h200 : (server 0).status = 200)
    (hpos : (server 0).rows.length ≠ 0)
    (hshort : (server 0).rows.length < min row_limit MAX_ROWS_PER_REQUEST) :
    query_loop server row_limit dims 0 [] 0
      = ((server 0).rows.map (flatten_row dims), 1) := by
  rw [query_loop]
  simp [h200, hpos, hshort]

/-- C6: with the Auth Header Provider returning Absent, both the analytics
query and the sitemap listing return an empty result having issued zero HTTP
requests, for every server behaviour. -/
theorem absent_headers_zero_requests (server : Nat → Page) (row_limit : Nat)
    (dims : List String) (resp : SitemapResp) :
    query_search_analytics none server row_limit dims = ([], 0) ∧
    list_sitemaps none resp = ([], 0) :=
  ⟨rfl, rfl⟩

/-- C7: when the first page returns a non-zero number of rows strictly fewer
than the requested page size min(row_limit, 25000), the query terminates
after exactly one HTTP request and returns exactly those rows, flattened. -/
theorem query_single_short_page (headers : String × String)
    (server : Nat → Page) (row_limit : Nat) (dims : List String)
    (h200 : (server 0).status = 200) (hpos : (server 0).rows.length ≠ 0)
    (hshort : (server 0).rows.length < min row_limit MAX_ROWS_PER_REQUEST) :
    query_search_analytics (some headers) server row_limit dims
      = ((server 0).rows.map (flatten_row dims), 1) :=
  query_loop_short_first server row_limit dims h200 hpos hshort

/-- A one-row 200 page, for the C7 witness. -/
def serverOneRow : Nat → Page := fun _ =>
  { status := 200
    rows := [{ keys := ["brooklyn seo"], clicks := 7, impressions := 100,
               ctr := 7 / 100, position := 3 }] }

/-- C7 witness: the theorem applied to a concrete one-row server with
row_limit 10. -/
theorem query_single_short_page_witness :
    (serverOneRow 0).rows.length ≠ 0 ∧
    (serverOneRow 0).rows.length < min 10 MAX_ROWS_PER_REQUEST ∧
    query_search_analytics (some hdrW) serverOneRow 10 ["query"]
      = ((serverOneRow 0).rows.map (flatten_row ["query"]), 1) :=
  ⟨by decide, by decide,
   query_single_short_page hdrW serverOneRow 10 ["query"] rfl (by decide) (by decide)⟩

-- C3: the loop accumulates every row of every fetched page and never
-- truncates to row_limit (search_analytics.py lines 62-77); only the
-- decision to fetch another page consults row_limit.

/-- A server that answers every request with 25 rows. -/
def server25 : Nat → Page := fun _ =>
  { status := 200
    rows := (List.range 25).map fun i =>
      { keys := ["query-" ++ toString i], clicks := i, impressions := i,
        ctr := 0, position := 1 } }

/-- C3 counterexample: with row_limit = 10 against a server returning 25
rows per page, the query returns 25 rows — more than row_limit — after one
request. -/
theorem query_row_limit_exceeded_cex :
    (query_search_analytics (some hdrW) server25 10 ["query"]).1.length = 25 ∧
    (query_search_analytics (some hdrW) server25 10 ["query"]).2 = 1 ∧
    ¬ (query_search_analytics (some hdrW) server25 10 ["query"]).1.length ≤ 10 := by
  have h : query_search_analytics (some hdrW) server25 10 ["query"]
      = (((server25 0).rows.map (flatten_row ["query"])), 1) := by
    show query_loop server25 10 ["query"] 0 [] 0 = _
    rw [query_loop]
    norm_num [server25]
  rw [h]
  simp [server25]

/-- Bound on the loop: if every page the server can return has at most M
rows, the accumulated length grows by at most (row_limit - start_row) + M. -/
theorem query_loop_length_le (server : Nat → Page) (row_limit : Nat)
    (dims : List String) (M : Nat) (hM : ∀ s, (server s).rows.length ≤ M) :
    ∀ (fuel start_row : Nat) (acc : List Entry) (reqs : Nat),
      row_limit - start_row ≤ fuel →
      (query_loop server row_limit dims start_row acc reqs).1.length
        ≤ acc.length + (row_limit - start_row) + M := by
  intro fuel
  induction fuel with
  | zero =>
    intro start_row acc reqs hf
    rw [query_loop]
    split
    · show acc.length ≤ acc.length + (row_limit - start_row) + M
      omega
    split
    · show acc.length ≤ acc.length + (row_limit - start_row) + M
      omega
    split
    · have := hM start_row
      simp only [List.length_append, List.length_map]
      omega
    split
    · have := hM start_row
      simp only [List.length_append, List.length_map]
      omega
    · rename_i h0 hshort hlim
      omega
  | succ n ih =>
    intro start_row acc reqs hf
    rw [query_loop]
    split
    · show acc.length ≤ acc.length + (row_limit - start_row) + M
      omega
    split
    · show acc.length ≤ acc.length + (row_limit - start_row) + M
      omega
    split
    · have := hM start_row
      simp only [List.length_append, List.length_map]
      omega
    split
    · have := hM start_row
      simp only [List.length_append, List.length_map]
      omega
    · rename_i h0 hshort hlim
      have hrec := ih (start_row + (server start_row).rows.length)
        (acc ++ (server start_row).rows.map (flatten_row dims)) (reqs + 1)
        (by omega)
      simp only [List.length_append, List.length_map] at hrec
      omega

/-- C3 amended: the query never issues a page request once the cursor has
reached row_limit, so when every page the server returns has at most M rows
the total row count is bounded by row_limit + M; the rows themselves are not
truncated to row_limit (see the counterexample: 25 rows for row_limit 10). -/
theorem query_search_analytics_row_bound (headers : Option (String × String))
    (server : Nat → Page) (row_limit : Nat) (dims : List String) (M : Nat)
    (hM : ∀ s, (server s).rows.length ≤ M) :
    (query_search_analytics headers server row_limit dims).1.length
      ≤ row_limit + M := by
  cases headers with
  | none => simp [query_search_analytics]
  | some h =>
    have := query_loop_length_le server row_limit dims M hM row_limit 0 [] 0
      (by omega)
    simpa [query_search_analytics] using this

/-- C3 witness: the amended bound applied to the 25-rows-per-page server with
row_limit 10 and M = 25. -/
theorem query_search_analytics_row_bound_witness :
    (∀ s, (server25 s).rows.length ≤ 25) ∧
    (query_search_analytics (some hdrW) server25 10 ["query"]).1.length ≤ 10 + 25 :=
  ⟨fun s => by simp [server25],
   query_search_analytics_row_bound (some hdrW) server25 10 ["query"] 25
     (fun s => by simp [server25])⟩

-- C5: pandas' descending sort reverses the rows and their indices before
-- the stable ascending argsort and reverses the indexer afterwards, so rows
-- that tie on clicks keep their original server order: the composite is the
-- stable descending sort.

/-- A single short page with two distinct rows that tie on clicks, and its
flattened entries: a concrete check that the pandas model keeps tied rows in
server order. -/
def serverTie : Nat → Page := fun _ =>
  { status := 200
    rows := [{ keys := ["first-query"], clicks := 5, impressions := 10,
               ctr := 0, position := 1 },
             { keys := ["second-query"], clicks := 5, impressions := 20,
               ctr := 0, position := 2 }] }

/-- The flattened form of serverTie's first row. -/
def entryTie1 : Entry :=
  { dims := [("query", "first-query")], clicks := 5, impressions := 10,
    ctr := 0, position := 1 }

/-- The flattened form of serverTie's second row. -/
def entryTie2 : Entry :=
  { dims := [("query", "second-query")], clicks := 5, impressions := 20,
    ctr := 0, position := 2 }

/-- Two tied rows arriving as (first, second) are returned as (first,
second): the descending sort leaves the tie in server order. -/
theorem get_top_queries_tie_kept_example :
    (query_search_analytics (some hdrW) serverTie 1000 ["query"]).1
      = [entryTie1, entryTie2] ∧
    get_top_queries (some hdrW) serverTie 1000 = [entryTie1, entryTie2] := by
  have h : query_search_analytics (some hdrW) serverTie 1000 ["query"]
      = ((serverTie 0).rows.map (flatten_row ["query"]), 1) :=
    query_loop_short_first serverTie 1000 ["query"] rfl (by decide) (by decide)
  constructor
  · rw [h]
    decide
  · show sort_values_clicks_desc
      (query_search_analytics (some hdrW) serverTie 1000 ["query"]).1 = _
    rw [h]
    decide

-- C9/C10: batch URL inspection.

/-- C9: batch_inspect_urls returns one item per input URL, in input order; a
URL whose inspection raises contributes an item carrying the error message
and a null result, and a URL whose inspection succeeds contributes its own
successful item — one URL's failure does not disturb any other's entry. -/
theorem batch_inspect_urls_per_url (headers : Option (String × String))
    (server : String → InspectResp) (urls : List String) (i : Nat)
    (h : i < urls.length)
    (hb : i < (batch_inspect_urls headers server urls).length) :
    (batch_inspect_urls headers server urls).length = urls.length ∧
    ((batch_inspect_urls headers server urls).get ⟨i, hb⟩).url = urls.get ⟨i, h⟩ ∧
    (∀ e, inspect_url headers server (urls.get ⟨i, h⟩) = Except.error e →
      (batch_inspect_urls headers server urls).get ⟨i, hb⟩
        = { url := urls.get ⟨i, h⟩, result := none, error := some e }) ∧
    (∀ r, inspect_url headers server (urls.get ⟨i, h⟩) = Except.ok r →
      (batch_inspect_urls headers server urls).get ⟨i, hb⟩
        = { url := urls.get ⟨i, h⟩, result := some r, error := none }) := by
  have hmap : (batch_inspect_urls headers server urls).get ⟨i, hb⟩
      = match inspect_url headers server (urls.get ⟨i, h⟩) with
        | Except.ok r => { url := urls.get ⟨i, h⟩, result := some r, error := none }
        | Except.error e => { url := urls.get ⟨i, h⟩, result := none, error := some e } := by
    unfold batch_inspect_urls
    rw [List.get_map]
  refine ⟨by simp [batch_inspect_urls], ?_, ?_, ?_⟩
  · rw [hmap]
    cases hi : inspect_url headers server (urls.get ⟨i, h⟩) <;> simp
  · intro e he
    rw [hmap, he]
  · intro r hr
    rw [hmap, hr]

/-- The three-URL batch scenario: the middle URL's inspection fails with a
500, the other two succeed. -/
def serverBatch : String → InspectResp := fun u =>
  if u = "https://example.com/b" then
    { status := 500, bodyText := "backend error", inspectionResult := [] }
  else
    { status := 200, bodyText := "",
      inspectionResult := [("coverageState", "Submitted and indexed")] }

/-- The three URLs of the batch scenario. -/
def urlsBatch : List String :=
  ["https://example.com/a", "https://example.com/b", "https://example.com/c"]

/-- C9 witness: for 3 URLs whose 2nd fails, the result has length 3, item 2
carries the error and a null result, and items 1 and 3 carry successful
results. -/
theorem batch_inspect_urls_per_url_witness :
    (batch_inspect_urls (some hdrW) serverBatch urlsBatch).length = 3 ∧
    (batch_inspect_urls (some hdrW) serverBatch urlsBatch).get ⟨0, by decide⟩
      = { url := "https://example.com/a",
          result := some [("coverageState", "Submitted and indexed")], error := none } ∧
    (batch_inspect_urls (some hdrW) serverBatch urlsBatch).get ⟨1, by decide⟩
      = { url := "https://example.com/b", result := none,
          error := some "API error 500: backend error" } ∧
    (batch_inspect_urls (some hdrW) serverBatch urlsBatch).get ⟨2, by decide⟩
      = { url := "https://example.com/c",
          result := some [("coverageState", "Submitted and indexed")], error := none } := by
  have h0 := batch_inspect_urls_per_url (some hdrW) serverBatch urlsBatch 0
    (by decide) (by decide)
  have h1 := batch_inspect_urls_per_url (some hdrW) serverBatch urlsBatch 1
    (by decide) (by decide)
  have h2 := batch_inspect_urls_per_url (some hdrW) serverBatch urlsBatch 2
    (by decide) (by decide)
  refine ⟨h0.1.trans rfl, ?_, ?_, ?_⟩
  · exact h0.2.2.2 [("coverageState", "Submitted and indexed")] rfl
  · exact h1.2.2.1 "API error 500: backend error" rfl
  · exact h2.2.2.2 [("coverageState", "Submitted and indexed")] rfl

/-- C10: with the Auth Header Provider returning Absent, every batch item
carries error = None and an empty result, and the whole batch output is
identical to that of a batch whose every inspection succeeds with an empty
inspection result — at this interface credential absence is indistinguishable
from empty success, for every server behaviour. -/
theorem batch_inspect_urls_absent_headers (server : String → InspectResp)
    (urls : List String) (h : String × String) :
    batch_inspect_urls none server urls
      = urls.map (fun u => { url := u, result := some [], error := none }) ∧
    batch_inspect_urls none server urls
      = batch_inspect_urls (some h)
          (fun _ => { status := 200, bodyText := "", inspectionResult := [] }) urls := by
  constructor
  · unfold batch_inspect_urls inspect_url
    rfl
  · unfold batch_inspect_urls inspect_url
    simp

end CoastalSEO
